import Mathlib

/-!
Verification of the pop3srv POP3 server library.

This file gives a shallow embedding, in Lean, of the parts of the Go
source relevant to the specification claims: the command parser
(`command.go`), the session state machine and its handlers
(`session.go`), the commit sequence (`(*Session).Close`), the TOP
truncator (`uidl_wrapper.go`), the read-timeout wrapper (`timeoutCall`),
and the accept-loop admission step of the server (`(*Server).Serve` /
`addSession`).

Mailboxes, authorizers and mailbox providers are external interfaces; they
are embedded as records of pure functions (a mailbox model answers every
call the same way, which is all the claims need).  Transport writes are
modelled as an accumulated list of written chunks and never fail; reads
are modelled by a script of input lines followed by a terminal read error
(EOF, timeout, or forced close all surface to `Serve` as an error from
`readCommand`).
-/

namespace Pop3Srv

/-- The error values of `pop3srv.go` (plus mailbox/authorizer supplied
errors as `custom`, the server sentinels, and `context.DeadlineExceeded`).
The strings are exactly the strings in the source, including the
misspelling in `ErrNotSupportedAuthMethod`. -/
inductive Err where
  | userNotSpecified
  | userAlreadySpecified
  | invalidCommand
  | invalidArgument
  | messageMarkedAsDeleted
  | notSupportedAuthMethod
  | tooManyConnections
  | deadlineExceeded
  | eof
  | custom (msg : String)
deriving DecidableEq, Repr

/-- The string each error prints as (`errors.New(...)` texts in
`pop3srv.go`, `context.DeadlineExceeded`, `io.EOF`). -/
def Err.message : Err → String
  | .userNotSpecified => "user not specified"
  | .userAlreadySpecified => "user already specified"
  | .invalidCommand => "invalid command"
  | .invalidArgument => "invalid argument"
  | .messageMarkedAsDeleted => "message marked as deleted"
  | .notSupportedAuthMethod => "not suported authorization method"
  | .tooManyConnections => "pop3: too many connections"
  | .deadlineExceeded => "context deadline exceeded"
  | .eof => "EOF"
  | .custom msg => msg

/-- ASCII digit test, as `strconv` uses for decimal integers. -/
def isDigit (c : Char) : Bool := '0' ≤ c && c ≤ '9'

/-- Decimal value of a digit list (most significant first). -/
def digitsVal (l : List Char) : Nat :=
  l.foldl (fun a c => a * 10 + (c.toNat - '0'.toNat)) 0

/-- `strconv.Atoi`: an optional sign followed by one or more decimal
digits, nothing else.  (Range errors of 64-bit ints are not modelled;
the session never feeds `Atoi` values near 2^63.) -/
def atoiChars : List Char → Option Int
  | [] => none
  | '+' :: rest =>
    if rest ≠ [] && rest.all isDigit then some (digitsVal rest) else none
  | '-' :: rest =>
    if rest ≠ [] && rest.all isDigit then some (-(digitsVal rest : Int)) else none
  | l => if l.all isDigit then some (digitsVal l) else none

def atoi (s : String) : Option Int := atoiChars s.toList

/-- Everything before the first space, and — when a space exists — the
remainder after it. -/
def breakSpace : List Char → List Char × Option (List Char)
  | [] => ([], none)
  | c :: rest =>
    if c = ' ' then ([], some rest)
    else
      let r := breakSpace rest
      (c :: r.1, r.2)

/-- `strings.SplitN(s, " ", n)` for `n ≥ 1`: at most `n` fields, the last
field carries the unsplit remainder. -/
def goSplitN : List Char → Nat → List (List Char)
  | _, 0 => []
  | l, 1 => [l]
  | l, n + 2 =>
    match breakSpace l with
    | (a, none) => [a]
    | (a, some rest) => a :: goSplitN rest (n + 1)

/-- `strings.ToUpper` restricted to ASCII, which is all the verbs use. -/
def goToUpper (s : String) : String := String.mk (s.toList.map Char.toUpper)

/-- `command` of `command.go`: verb, string arguments, and the parsed
integer companions. -/
structure Command where
  name : String
  args : List String
  numArgs : List Int
deriving DecidableEq, Repr

/-- The companion computed by the loop body of `(*command).parse`:
on `Atoi` success store the value, and for the first argument only,
subtract one when the value is positive; on `Atoi` failure store `-1`. -/
def numCompanion (i : Nat) (arg : String) : Int :=
  match atoi arg with
  | some v => if i == 0 && v > 0 then v - 1 else v
  | none => -1

/-- The `for i, arg := range c.args` loop of `(*command).parse`. -/
def numCompanions : Nat → List String → List Int
  | _, [] => []
  | i, a :: rest => numCompanion i a :: numCompanions (i + 1) rest

/-- `(*command).parse`: split on the first two spaces, uppercase the
verb, keep the remaining fields as arguments, compute companions. -/
def Command.parse (line : String) : Command :=
  let parts := (goSplitN line.toList 3).map fun l => String.mk l
  { name := goToUpper (parts.headD "")
    args := parts.tail
    numArgs := numCompanions 0 parts.tail }

/-- `(*command).oneNumArg`. -/
def Command.oneNumArg (c : Command) : Bool :=
  c.args.length == 1 && c.numArgs.headD (-1) != -1

/-- `(*command).twoNumArgs`. -/
def Command.twoNumArgs (c : Command) : Bool :=
  c.args.length == 2 && c.numArgs.headD (-1) != -1
    && (c.numArgs.getD 1 (-1)) != -1

/-- One call the session makes on its mailbox (the `Mailbox` interface of
`pop3srv.go`). -/
inductive MboxCall where
  | stat
  | list
  | listOne (n : Int)
  | message (n : Int)
  | dele (n : Int)
  | uidl
  | uidlOne (n : Int)
  | close
deriving DecidableEq, Repr

/-- A mailbox model: a pure answer for every `Mailbox` method.  Message
content is the byte string the `io.ReadCloser` of `Message` yields. -/
structure MailboxModel where
  stat : Int × Int × Option Err
  list : List Int × Option Err
  listOne : Int → Int × Option Err
  message : Int → Except Err String
  dele : Int → Option Err
  uidl : List String × Option Err
  uidlOne : Int → String × Option Err
  close : Option Err

/-- An `Authorizer` model. -/
structure AuthorizerModel where
  userPass : String → String → Option Err
  apop : String → String → String → Option Err

/-- A `MailboxProvider` model. -/
structure ProviderModel where
  provide : String → Except Err MailboxModel

/-- `sessionState` of `session.go`. -/
inductive SState where
  | authorization
  | transaction
  | update
deriving DecidableEq, Repr

/-- The mutable fields of `Session`, plus its collaborators.
`connectionTimeoutNs` is the `ConnectionTimeout` field in nanoseconds;
`toDelete` models the `map[int]struct{}` as its key list in insertion
order (the handlers never insert a key twice, see `handleDele`). -/
structure SessionSt where
  connectionTimeoutNs : Int
  authorizer : AuthorizerModel
  mboxProvider : ProviderModel
  timestampBanner : String
  state : SState
  user : String
  mailbox : Option MailboxModel
  toDelete : List Int
  msgCount : Int

/-- The observable effect of one handler invocation: the updated session,
the chunks written to the connection, the mailbox calls made, whether the
transport was closed, and whether the Go code would have panicked (nil
mailbox dereference or out-of-range argument index — unreachable on the
paths the dispatcher admits). -/
structure HandlerOut where
  st : SessionSt
  writes : List String
  calls : List MboxCall
  connClosed : Bool
  panicked : Bool

/-- `(*Session).writeResponseLine`: `+OK <ok>` or `-ERR <err>`. -/
def responseLine (okResponse : String) (err : Option Err) : String :=
  match err with
  | some e => "-ERR " ++ e.message ++ "\r\n"
  | none => "+OK " ++ okResponse ++ "\r\n"

/-- The literal `"-ERR invalid arguments\r\n"` several handlers write
directly via `writeLine`. -/
def invalidArgumentsLine : String := "-ERR invalid arguments\r\n"

/-- `(*Session).isMarkedAsDeleted`. -/
def SessionSt.isMarkedAsDeleted (s : SessionSt) (msg : Int) : Bool :=
  s.toDelete.contains msg

/-- A handler step with no state change and a single written line. -/
def writeOnly (s : SessionSt) (line : String) : HandlerOut :=
  ⟨s, [line], [], false, false⟩

/-- The Go nil-dereference / index-out-of-range outcome. -/
def panicOut (s : SessionSt) : HandlerOut := ⟨s, [], [], false, true⟩

/-- `(*Session).handleUser`. -/
def handleUser (s : SessionSt) (cmd : Command) : HandlerOut :=
  if s.user ≠ "" then
    writeOnly s (responseLine "" (some .userAlreadySpecified))
  else
    match cmd.args with
    | [] => panicOut s
    | u :: _ => writeOnly { s with user := u } (responseLine "send PASS" none)

/-- `(*Session).handlePass`: authenticate, provide the mailbox, install
it, switch to TRANSACTION, then `Stat` — the final response reports the
last error seen. -/
def handlePass (s : SessionSt) (cmd : Command) : HandlerOut :=
  if s.user = "" then
    writeOnly s (responseLine "" (some .userNotSpecified))
  else
    match cmd.args with
    | [] => panicOut s
    | pass :: _ =>
      match s.authorizer.userPass s.user pass with
      | some e => writeOnly s (responseLine "" (some e))
      | none =>
        match s.mboxProvider.provide s.user with
        | .error e => writeOnly s (responseLine "logged in" (some e))
        | .ok mb =>
          let statRes := mb.stat
          let s' := { s with
            mailbox := some mb
            state := .transaction
            msgCount := statRes.1 }
          ⟨s', [responseLine "logged in" statRes.2.2], [.stat], false, false⟩

/-- `(*Session).handleApop`: same shape as `handlePass` but requires
exactly two arguments. -/
def handleApop (s : SessionSt) (cmd : Command) : HandlerOut :=
  match cmd.args with
  | [user, digest] =>
    match s.authorizer.apop user s.timestampBanner digest with
    | some e => writeOnly s (responseLine "" (some e))
    | none =>
      match s.mboxProvider.provide user with
      | .error e => writeOnly s (responseLine "logged in" (some e))
      | .ok mb =>
        let statRes := mb.stat
        let s' := { s with
          mailbox := some mb
          state := .transaction
          msgCount := statRes.1 }
        ⟨s', [responseLine "logged in" statRes.2.2], [.stat], false, false⟩
  | _ => writeOnly s invalidArgumentsLine

/-- `(*Session).handleCapa`: status line then the fixed capability blob. -/
def handleCapa (s : SessionSt) (_ : Command) : HandlerOut :=
  ⟨s, [responseLine "Capability list follows" none,
       "USER\r\nTOP\r\nUIDL\r\n.\r\n"], [], false, false⟩

/-- The `for msg := range s.toDelete` loop of `(*Session).Close`:
`Dele` each pending index, stopping at the first failure.  Returns the
calls made and the loop's final `err`. -/
def deleLoop (mb : MailboxModel) : List Int → List MboxCall × Option Err
  | [] => ([], none)
  | n :: rest =>
    match mb.dele n with
    | some e => ([.dele n], some e)
    | none =>
      let r := deleLoop mb rest
      (.dele n :: r.1, r.2)

/-- `(*Session).Close`: run the deletion loop if a mailbox is open, then
call the mailbox's `Close` — *overwriting* the loop's error with
`Close`'s result — write the farewell line from that final error, and
close the transport. -/
def sessionClose (s : SessionSt) : HandlerOut :=
  match s.mailbox with
  | none => ⟨s, [responseLine "server signing off" none], [], true, false⟩
  | some mb =>
    let r := deleLoop mb s.toDelete
    let err := mb.close
    ⟨s, [responseLine "server signing off" err], r.1 ++ [.close], true, false⟩

/-- `(*Session).handleQuit`: enter UPDATE and run `Close`. -/
def handleQuit (s : SessionSt) (_ : Command) : HandlerOut :=
  sessionClose { s with state := .update }

/-- `(*Session).handleNoop`. -/
def handleNoop (s : SessionSt) (_ : Command) : HandlerOut :=
  writeOnly s (responseLine "noop" none)

/-- `(*Session).handleRset`: clear the deletion set. -/
def handleRset (s : SessionSt) (_ : Command) : HandlerOut :=
  writeOnly { s with toDelete := [] } (responseLine "maildrop has been reset" none)

/-- `(*Session).handleDele`: precheck the deletion set, then the upper
bound — the source compares with `n > s.msgCount`, so `n = msgCount`
passes — then insert. -/
def handleDele (s : SessionSt) (cmd : Command) : HandlerOut :=
  if !cmd.oneNumArg then
    writeOnly s invalidArgumentsLine
  else
    let n := cmd.numArgs.headD (-1)
    if s.isMarkedAsDeleted n then
      writeOnly s (responseLine "" (some .messageMarkedAsDeleted))
    else if n > s.msgCount then
      writeOnly s invalidArgumentsLine
    else
      writeOnly { s with toDelete := s.toDelete ++ [n] }
        (responseLine "message deleted" none)

/-- `(*Session).handleStat`. -/
def handleStat (s : SessionSt) (_ : Command) : HandlerOut :=
  match s.mailbox with
  | none => panicOut s
  | some mb =>
    let r := mb.stat
    ⟨s, [responseLine (toString r.1 ++ " " ++ toString r.2.1) r.2.2],
     [.stat], false, false⟩

/-- `(*Session).handleList`.  In the one-argument branch the
marked-as-deleted check writes its `-ERR` line but does **not** return:
the source falls through to `ListOne` and a second status line. -/
def handleList (s : SessionSt) (cmd : Command) : HandlerOut :=
  if cmd.oneNumArg then
    let n := cmd.numArgs.headD (-1)
    let deletedWrites : List String :=
      if s.isMarkedAsDeleted n then
        [responseLine "" (some .messageMarkedAsDeleted)]
      else []
    match s.mailbox with
    | none => panicOut s
    | some mb =>
      let r := mb.listOne n
      ⟨s, deletedWrites ++
          [responseLine (toString (n + 1) ++ " " ++ toString r.1) r.2],
       [.listOne n], false, false⟩
  else
    match s.mailbox with
    | none => panicOut s
    | some mb =>
      let r := mb.list
      let header := responseLine
        (toString r.1.length ++ " messages in mailbox") r.2
      let body := (List.range r.1.length).map fun i =>
        toString (i + 1) ++ " " ++ toString (r.1.getD i 0) ++ "\r\n"
      ⟨s, header :: body ++ [".\r\n"], [.list], false, false⟩

/-- `(*Session).handleUidl`. -/
def handleUidl (s : SessionSt) (cmd : Command) : HandlerOut :=
  if cmd.oneNumArg then
    let n := cmd.numArgs.headD (-1)
    if s.isMarkedAsDeleted n then
      writeOnly s (responseLine "" (some .messageMarkedAsDeleted))
    else
      match s.mailbox with
      | none => panicOut s
      | some mb =>
        let r := mb.uidlOne n
        ⟨s, [responseLine (toString (n + 1) ++ " " ++ r.1) r.2],
         [.uidlOne n], false, false⟩
  else
    match s.mailbox with
    | none => panicOut s
    | some mb =>
      let r := mb.uidl
      let header := responseLine
        (toString r.1.length ++ " messages in mailbox") r.2
      let body := (List.range r.1.length).map fun i =>
        toString (i + 1) ++ " " ++ r.1.getD i "" ++ "\r\n"
      ⟨s, header :: body ++ [".\r\n"], [.uidl], false, false⟩

/-- `dropCR` of `bufio.ScanLines`: strip one trailing `'\r'`. -/
def dropCR (l : List Char) : List Char :=
  if l.getLast? = some '\r' then l.dropLast else l

/-- `bufio.Scanner` with `ScanLines`: split at `'\n'`, strip a trailing
`'\r'` from each token, and yield a final unterminated token only when
it is non-empty.  The accumulator holds the current token reversed. -/
def scanLinesAux : List Char → List Char → List (List Char)
  | [], acc => if acc.isEmpty then [] else [dropCR acc.reverse]
  | '\n' :: rest, acc => dropCR acc.reverse :: scanLinesAux rest []
  | c :: rest, acc => scanLinesAux rest (c :: acc)

def scanLines (s : String) : List String :=
  (scanLinesAux s.toList []).map String.mk

/-- The scan loop of `copyHeadersAndBody` (`uidl_wrapper.go`): track
whether the empty header/body separator has been seen, count body lines,
break once the count exceeds the limit, and emit each surviving line
re-terminated with CRLF. -/
def chbLoop (lineLimit : Int) : List String → Bool → Int → List String
  | [], _, _ => []
  | line :: rest, headersDone, lineCount =>
    if !headersDone then
      if lineCount > lineLimit then []
      else (line ++ "\r\n") :: chbLoop lineLimit rest (line == "") lineCount
    else
      if lineCount + 1 > lineLimit then []
      else (line ++ "\r\n") :: chbLoop lineLimit rest true (lineCount + 1)

/-- `copyHeadersAndBody`: all header lines through the separator, then at
most `lineLimit` body lines, all CRLF-terminated.  No byte-stuffing is
performed on the emitted lines. -/
def copyHeadersAndBody (content : String) (lineLimit : Int) : List String :=
  chbLoop lineLimit (scanLines content) false 0

/-- `(*Session).handleTop`. -/
def handleTop (s : SessionSt) (cmd : Command) : HandlerOut :=
  if !cmd.twoNumArgs then
    writeOnly s invalidArgumentsLine
  else
    let n := cmd.numArgs.headD (-1)
    let nLines := cmd.numArgs.getD 1 (-1)
    if s.isMarkedAsDeleted n then
      writeOnly s (responseLine "" (some .messageMarkedAsDeleted))
    else
      match s.mailbox with
      | none => panicOut s
      | some mb =>
        match mb.message n with
        | .error e =>
          ⟨s, [responseLine "message body" (some e)], [.message n], false, false⟩
        | .ok content =>
          ⟨s, responseLine "message body" none ::
              copyHeadersAndBody content nLines ++ [".\r\n"],
           [.message n], false, false⟩

/-- One line as `textproto.DotWriter` transmits it: byte-stuffed when it
begins with `'.'`, CRLF-terminated. -/
def dotStuffLine (l : String) : String :=
  match l.toList with
  | '.' :: _ => "." ++ l ++ "\r\n"
  | _ => l ++ "\r\n"

/-- `(*Session).handleRetr`: the body is streamed through a
`textproto.DotWriter`, whose close appends the `.` terminator. -/
def handleRetr (s : SessionSt) (cmd : Command) : HandlerOut :=
  if !cmd.oneNumArg then
    writeOnly s invalidArgumentsLine
  else
    let n := cmd.numArgs.headD (-1)
    if s.isMarkedAsDeleted n then
      writeOnly s (responseLine "" (some .messageMarkedAsDeleted))
    else
      match s.mailbox with
      | none => panicOut s
      | some mb =>
        match mb.message n with
        | .error e =>
          ⟨s, [responseLine ("message body #" ++ toString (n + 1)) (some e)],
           [.message n], false, false⟩
        | .ok content =>
          ⟨s, responseLine ("message body #" ++ toString (n + 1)) none ::
              (scanLines content).map dotStuffLine ++ [".\r\n"],
           [.message n], false, false⟩

/-- `authorizationStateDispatch` of `session.go`. -/
def authDispatch (name : String) : Option (SessionSt → Command → HandlerOut) :=
  if name = "USER" then some handleUser
  else if name = "PASS" then some handlePass
  else if name = "QUIT" then some handleQuit
  else if name = "APOP" then some handleApop
  else if name = "CAPA" then some handleCapa
  else none

/-- `transactionStateDispatch` of `session.go`. -/
def transDispatch (name : String) : Option (SessionSt → Command → HandlerOut) :=
  if name = "QUIT" then some handleQuit
  else if name = "CAPA" then some handleCapa
  else if name = "STAT" then some handleStat
  else if name = "LIST" then some handleList
  else if name = "RETR" then some handleRetr
  else if name = "DELE" then some handleDele
  else if name = "RSET" then some handleRset
  else if name = "NOOP" then some handleNoop
  else if name = "TOP" then some handleTop
  else if name = "UIDL" then some handleUidl
  else none

/-- `starteDispatch`: the per-state handler table. -/
def stateDispatch : SState → String → Option (SessionSt → Command → HandlerOut)
  | .authorization, n => authDispatch n
  | .transaction, n => transDispatch n
  | .update, _ => none

/-- `(*Session).handleState`: dispatch, or `-ERR invalid command`. -/
def handleState (s : SessionSt) (cmd : Command) : HandlerOut :=
  match stateDispatch s.state cmd.name with
  | some h => h s cmd
  | none => writeOnly s (responseLine "" (some .invalidCommand))

/-- `strings.TrimRight(line, "\r\n")` as `readCommand` applies it. -/
def trimRightCRLF (s : String) : String :=
  String.mk ((s.toList.reverse.dropWhile fun c => c == '\r' || c == '\n').reverse)

/-- Result of a `Serve` run: everything written, every mailbox call, the
error `Serve` returned (`none` after QUIT), and the final session. -/
structure ServeRes where
  writes : List String
  calls : List MboxCall
  err : Option Err
  final : SessionSt

/-- `(*Session).Serve` over a script of incoming lines.  When the script
is exhausted before the state reaches UPDATE, the next `readCommand`
fails and `Serve` returns that error (`endErr`: EOF, a timeout, or the
error of a force-closed transport).  A Go panic inside a handler also
ends the run abnormally. -/
def serve (endErr : Err) : SessionSt → List String → ServeRes
  | s, [] =>
    if s.state = .update then ⟨[], [], none, s⟩ else ⟨[], [], some endErr, s⟩
  | s, line :: rest =>
    if s.state = .update then ⟨[], [], none, s⟩
    else
      let out := handleState s (Command.parse (trimRightCRLF line))
      if out.panicked then ⟨out.writes, out.calls, some (.custom "panic"), out.st⟩
      else
        let r := serve endErr out.st rest
        ⟨out.writes ++ r.writes, out.calls ++ r.calls, r.err, r.final⟩

/-- A fresh session as `NewSession` builds it. -/
def initSession (auth : AuthorizerModel) (prov : ProviderModel)
    (banner : String) (timeoutNs : Int) : SessionSt :=
  { connectionTimeoutNs := timeoutNs
    authorizer := auth
    mboxProvider := prov
    timestampBanner := banner
    state := .authorization
    user := ""
    mailbox := none
    toDelete := []
    msgCount := 0 }

instance : DecidableEq (Except Err Command) := fun a b =>
  match a, b with
  | .ok x, .ok y => decidable_of_iff (x = y) (by simp)
  | .error x, .error y => decidable_of_iff (x = y) (by simp)
  | .ok _, .error _ => isFalse (by simp)
  | .error _, .ok _ => isFalse (by simp)

def nsPerSecond : Int := 1000000000

/-- `timeoutCall`: a non-positive timeout runs the call unbounded; a
positive one races it against the timer, yielding
`context.DeadlineExceeded` when the call takes longer. -/
def timeoutCall (timeout : Int) (fnDurationNs : Int)
    (fnResult : Except Err Command) : Except Err Command :=
  if timeout ≤ 0 then fnResult
  else if fnDurationNs > timeout then .error .deadlineExceeded
  else fnResult

/-- The timeout `(*Session).Serve` passes to `timeoutCall` around every
`readCommand`: the literal `10*time.Second`.  The session's
`ConnectionTimeout` field does not enter the expression. -/
def serveReadTimeoutNs (_ : SessionSt) : Int := 10 * nsPerSecond

/-- `(*Server).addSession`: reject when the active count has reached
`ConnectionsLimit`. -/
def addSession (activeSessions limit : Nat) : Option Err :=
  if activeSessions ≥ limit then some .tooManyConnections else none

/-- What the accept loop does with one accepted connection. -/
structure AcceptOutcome where
  writes : List String
  connClosed : Bool
  sessionStarted : Bool
deriving DecidableEq, Repr

/-- The admission step of `(*Server).Serve` for a connection whose
`Accept` returned `err = nil`: on `addSession` failure the source runs
`session.writeResponseLine("", err)` — passing the *nil* `Accept` error,
not the value `addSession` returned — and `continue`s without closing
the connection; on success the session worker is spawned. -/
def serveAcceptStep (activeSessions limit : Nat) : AcceptOutcome :=
  match addSession activeSessions limit with
  | some _ => ⟨[responseLine "" none], false, false⟩
  | none => ⟨[], false, true⟩

/-! ## Concrete fixtures for witnesses and counterexamples -/

/-- A two-message mailbox mirroring the repository's test fixture:
`Stat → (2, 1024)`, `ListOne → 500`, and a message whose body contains a
line that begins with a dot. -/
def mbTest : MailboxModel :=
  { stat := (2, 1024, none)
    list := ([500, 524], none)
    listOne := fun _ => (500, none)
    message := fun _ => .ok "Subject: x\n\n.hidden\nL2\n"
    dele := fun _ => none
    uidl := (["uid1", "uid2"], none)
    uidlOne := fun _ => ("uid1", none)
    close := none }

/-- `AllowAllAuthorizer`. -/
def allowAll : AuthorizerModel := ⟨fun _ _ => none, fun _ _ _ => none⟩

def provTest : ProviderModel := ⟨fun _ => .ok mbTest⟩

/-- A fresh session over the test mailbox. -/
def sTest : SessionSt := initSession allowAll provTest "<1.2@host>" 0

/-- A mailbox whose `Dele` always fails while `Close` succeeds. -/
def mbDeleFail : MailboxModel :=
  { mbTest with dele := fun _ => some (.custom "dele failed") }

/-- A TRANSACTION session over `mbDeleFail` with message 0 marked. -/
def sDeleFail : SessionSt :=
  { sTest with
    state := .transaction
    mailbox := some mbDeleFail
    toDelete := [0]
    msgCount := 2 }

/-- A mailbox whose `Stat` reports a count of 5 together with an error. -/
def mbStatErr : MailboxModel :=
  { mbTest with stat := (5, 0, some (.custom "stat failed")) }

def provStatErr : ProviderModel := ⟨fun _ => .ok mbStatErr⟩

/-- An AUTHORIZATION session with the user name already given. -/
def sUserGiven : SessionSt :=
  { initSession allowAll provStatErr "<1.2@host>" 0 with user := "u" }

/-- A session configured with `ConnectionTimeout = 30s`. -/
def sTimeout30 : SessionSt :=
  initSession allowAll provTest "<1.2@host>" (30 * nsPerSecond)

/-- No `Dele` among the calls of a handler outcome. -/
def deleFree (o : HandlerOut) : Prop := ∀ n, MboxCall.dele n ∉ o.calls

/-- A panicking outcome made no mailbox calls. -/
def panicEmpty (o : HandlerOut) : Prop := o.panicked = true → o.calls = []

/-! ## Helper lemmas -/


theorem handleUser_safe (s : SessionSt) (cmd : Command) :
    deleFree (handleUser s cmd) ∧ panicEmpty (handleUser s cmd) := by
  unfold deleFree panicEmpty handleUser writeOnly panicOut
  constructor <;> intro h <;> (try dsimp only at *) <;>
    (repeat' (first | split | split at h)) <;> simp_all

theorem handlePass_safe (s : SessionSt) (cmd : Command) :
    deleFree (handlePass s cmd) ∧ panicEmpty (handlePass s cmd) := by
  unfold deleFree panicEmpty handlePass writeOnly panicOut
  constructor <;> intro h <;> (try dsimp only at *) <;>
    (repeat' (first | split | split at h)) <;> simp_all

theorem handleApop_safe (s : SessionSt) (cmd : Command) :
    deleFree (handleApop s cmd) ∧ panicEmpty (handleApop s cmd) := by
  unfold deleFree panicEmpty handleApop writeOnly
  constructor <;> intro h <;> (try dsimp only at *) <;>
    (repeat' (first | split | split at h)) <;> simp_all

theorem handleCapa_safe (s : SessionSt) (cmd : Command) :
    deleFree (handleCapa s cmd) ∧ panicEmpty (handleCapa s cmd) := by
  unfold deleFree panicEmpty handleCapa
  constructor <;> intro h <;> simp_all

theorem handleNoop_safe (s : SessionSt) (cmd : Command) :
    deleFree (handleNoop s cmd) ∧ panicEmpty (handleNoop s cmd) := by
  unfold deleFree panicEmpty handleNoop writeOnly
  constructor <;> intro h <;> simp_all

theorem handleRset_safe (s : SessionSt) (cmd : Command) :
    deleFree (handleRset s cmd) ∧ panicEmpty (handleRset s cmd) := by
  unfold deleFree panicEmpty handleRset writeOnly
  constructor <;> intro h <;> simp_all

theorem handleDele_safe (s : SessionSt) (cmd : Command) :
    deleFree (handleDele s cmd) ∧ panicEmpty (handleDele s cmd) := by
  unfold deleFree panicEmpty handleDele writeOnly
  constructor <;> intro h <;> (try dsimp only at *) <;>
    (repeat' (first | split | split at h)) <;> simp_all

theorem handleStat_safe (s : SessionSt) (cmd : Command) :
    deleFree (handleStat s cmd) ∧ panicEmpty (handleStat s cmd) := by
  unfold deleFree panicEmpty handleStat panicOut
  constructor <;> intro h <;> (try dsimp only at *) <;>
    (repeat' (first | split | split at h)) <;> simp_all

theorem handleList_safe (s : SessionSt) (cmd : Command) :
    deleFree (handleList s cmd) ∧ panicEmpty (handleList s cmd) := by
  unfold deleFree panicEmpty handleList panicOut
  constructor <;> intro h <;> (try dsimp only at *) <;>
    (repeat' (first | split | split at h)) <;> simp_all

theorem handleUidl_safe (s : SessionSt) (cmd : Command) :
    deleFree (handleUidl s cmd) ∧ panicEmpty (handleUidl s cmd) := by
  unfold deleFree panicEmpty handleUidl writeOnly panicOut
  constructor <;> intro h <;> (try dsimp only at *) <;>
    (repeat' (first | split | split at h)) <;> simp_all

theorem handleTop_safe (s : SessionSt) (cmd : Command) :
    deleFree (handleTop s cmd) ∧ panicEmpty (handleTop s cmd) := by
  unfold deleFree panicEmpty handleTop writeOnly panicOut
  constructor <;> intro h <;> (try dsimp only at *) <;>
    (repeat' (first | split | split at h)) <;> simp_all

theorem handleRetr_safe (s : SessionSt) (cmd : Command) :
    deleFree (handleRetr s cmd) ∧ panicEmpty (handleRetr s cmd) := by
  unfold deleFree panicEmpty handleRetr writeOnly panicOut
  constructor <;> intro h <;> (try dsimp only at *) <;>
    (repeat' (first | split | split at h)) <;> simp_all

theorem handleQuit_update (s : SessionSt) (cmd : Command) :
    (handleQuit s cmd).st.state = SState.update ∧
    (handleQuit s cmd).panicked = false := by
  unfold handleQuit sessionClose
  cases hm : s.mailbox <;> simp_all

/-- Identification of a dispatched handler: it is `handleQuit` (which
drives the state to UPDATE) or one of the `Dele`-free handlers. -/
theorem dispatched_safe (st : SState) (nm : String)
    (h : SessionSt → Command → HandlerOut)
    (hd : stateDispatch st nm = some h) :
    (∀ s cmd, (h s cmd).st.state = SState.update ∧ (h s cmd).panicked = false)
    ∨ (∀ s cmd, deleFree (h s cmd) ∧ panicEmpty (h s cmd)) := by
  cases st <;> simp only [stateDispatch] at hd
  · unfold authDispatch at hd
    repeat' split at hd
    · exact (by injection hd with hh; subst hh; exact Or.inr handleUser_safe)
    · exact (by injection hd with hh; subst hh; exact Or.inr handlePass_safe)
    · exact (by injection hd with hh; subst hh; exact Or.inl handleQuit_update)
    · exact (by injection hd with hh; subst hh; exact Or.inr handleApop_safe)
    · exact (by injection hd with hh; subst hh; exact Or.inr handleCapa_safe)
    · exact absurd hd (by simp)
  · unfold transDispatch at hd
    repeat' split at hd
    · exact (by injection hd with hh; subst hh; exact Or.inl handleQuit_update)
    · exact (by injection hd with hh; subst hh; exact Or.inr handleCapa_safe)
    · exact (by injection hd with hh; subst hh; exact Or.inr handleStat_safe)
    · exact (by injection hd with hh; subst hh; exact Or.inr handleList_safe)
    · exact (by injection hd with hh; subst hh; exact Or.inr handleRetr_safe)
    · exact (by injection hd with hh; subst hh; exact Or.inr handleDele_safe)
    · exact (by injection hd with hh; subst hh; exact Or.inr handleRset_safe)
    · exact (by injection hd with hh; subst hh; exact Or.inr handleNoop_safe)
    · exact (by injection hd with hh; subst hh; exact Or.inr handleTop_safe)
    · exact (by injection hd with hh; subst hh; exact Or.inr handleUidl_safe)
    · exact absurd hd (by simp)
  · exact absurd hd (by simp)

/-- Every dispatched handler either drives the state to UPDATE (only
`handleQuit` does) or makes no `Dele` call (and, if it panics, made no
call at all). -/
theorem handleState_safe (s : SessionSt) (cmd : Command) :
    ((handleState s cmd).st.state = SState.update ∧
      (handleState s cmd).panicked = false)
    ∨ (deleFree (handleState s cmd) ∧ panicEmpty (handleState s cmd)) := by
  unfold handleState
  rcases hd : stateDispatch s.state cmd.name with _ | h
  · refine Or.inr ⟨fun n => ?_, fun hp => ?_⟩ <;> simp_all [writeOnly]
  · rcases dispatched_safe _ _ _ hd with hl | hr
    · exact Or.inl (hl s cmd)
    · exact Or.inr (hr s cmd)

/-- A session already in UPDATE runs no further commands and `Serve`
returns nil. -/
theorem serve_update_err_none (endErr : Err) (s : SessionSt)
    (lines : List String) (h : s.state = SState.update) :
    (serve endErr s lines).err = none := by
  cases lines <;> simp [serve, h]

/-- `(s ++ t).data` is the concatenation of the data lists. -/
theorem stringDataAppend (x y : String) : (x ++ y).data = x.data ++ y.data := rfl

/-- Structure eta for `String`. -/
theorem stringMkToList (s : String) : String.mk s.toList = s := rfl

/-- An `-ERR` status line never equals an `+OK` status line. -/
theorem errLine_ne_okLine (m t u : String) :
    ("-ERR " ++ m ++ t : String) ≠ ("+OK " ++ u : String) := by
  intro h
  have hd := congrArg String.data h
  rw [stringDataAppend, stringDataAppend, stringDataAppend] at hd
  have h1 : ("-ERR " : String).data = ['-', 'E', 'R', 'R', ' '] := rfl
  have h2 : ("+OK " : String).data = ['+', 'O', 'K', ' '] := rfl
  rw [h1, h2] at hd
  simp at hd

/-- `breakSpace` splits an appended space when the left part has none. -/
theorem breakSpace_append (a b : List Char) (h : ' ' ∉ a) :
    breakSpace (a ++ ' ' :: b) = (a, some b) := by
  induction a with
  | nil => simp [breakSpace]
  | cons c rest ih =>
    have hc : c ≠ ' ' := fun hc => h (hc ▸ List.mem_cons_self c rest)
    have hr : ' ' ∉ rest := fun hm => h (List.mem_cons_of_mem _ hm)
    rw [List.cons_append]
    simp [breakSpace, if_neg hc, ih hr]

/-- A three-field `SplitN` on a line with exactly two separating spaces. -/
theorem goSplitN3_two_spaces (nm a b : List Char)
    (h1 : ' ' ∉ nm) (h2 : ' ' ∉ a) :
    goSplitN (nm ++ ' ' :: (a ++ ' ' :: b)) 3 = [nm, a, b] := by
  simp only [goSplitN, breakSpace_append nm _ h1, breakSpace_append a b h2]

/-- The `Dele` calls of the commit loop are exactly the pending indexes
up to and including the first failing one. -/
theorem deleLoop_calls (mb : MailboxModel) (del : List Int) :
    (deleLoop mb del).1 =
      (del.take (del.findIdx (fun n => (mb.dele n).isSome) + 1)).map
        MboxCall.dele := by
  induction del with
  | nil => simp [deleLoop]
  | cons n rest ih =>
    simp only [deleLoop, List.findIdx_cons]
    cases h : mb.dele n with
    | some e => simp [h]
    | none => simp [h, ih]

/-- The commit loop itself never calls `Close`. -/
theorem deleLoop_no_close (mb : MailboxModel) (del : List Int) :
    MboxCall.close ∉ (deleLoop mb del).1 := by
  induction del with
  | nil => simp [deleLoop]
  | cons n rest ih =>
    simp only [deleLoop]
    cases h : mb.dele n <;> simp_all

/-! ## C1 -/

/-- C1: a session that terminates without having processed a QUIT —
`Serve` returns an error after a transport read failure (EOF, timeout,
forced close) or an in-handler panic — has made no `Dele` call on the
mailbox: `Dele` is reachable only through the commit path of
`handleQuit`, which ends the loop with a nil error. -/
theorem C1_no_dele_without_quit (endErr e : Err) (s : SessionSt)
    (lines : List String) (he : (serve endErr s lines).err = some e)
    (n : Int) : MboxCall.dele n ∉ (serve endErr s lines).calls := by
  induction lines generalizing s with
  | nil =>
    simp only [serve]
    split <;> simp
  | cons line rest ih =>
    by_cases hs : s.state = SState.update
    · rw [serve_update_err_none endErr s (line :: rest) hs] at he
      exact Option.noConfusion he
    · rcases handleState_safe s (Command.parse (trimRightCRLF line))
        with ⟨hupd, hpf⟩ | ⟨hdf, hpe⟩
      · have hnone := serve_update_err_none endErr _ rest hupd
        simp only [serve, if_neg hs, hpf, Bool.false_eq_true, if_false] at he
        rw [hnone] at he
        exact Option.noConfusion he
      · by_cases hp :
          (handleState s (Command.parse (trimRightCRLF line))).panicked = true
        · simp only [serve, if_neg hs, hp, if_true]
          rw [hpe hp]
          simp
        · simp only [serve, if_neg hs, Bool.not_eq_true] at hp
          simp only [serve, if_neg hs, hp, Bool.false_eq_true, if_false] at he ⊢
          rw [List.mem_append]
          push_neg
          exact ⟨hdf n, ih _ he⟩

/-! ## C1 witness -/

/-- C1 witness: a concrete session that authenticates, marks a message,
and then hits EOF; `Serve` returns the EOF error and no `Dele` was
called. -/
theorem C1_witness :
    (serve Err.eof sTest ["USER u", "PASS p", "DELE 1"]).err = some Err.eof ∧
    MboxCall.dele 0 ∉ (serve Err.eof sTest ["USER u", "PASS p", "DELE 1"]).calls :=
  ⟨by decide, C1_no_dele_without_quit Err.eof Err.eof sTest
    ["USER u", "PASS p", "DELE 1"] (by decide) 0⟩

/-! ## C2 -/

/-- C2 counterexample: with a mailbox whose `Dele` fails but whose
`Close` succeeds, the commit sequence still sends
`+OK server signing off`: the claim's "`+OK` if and only if both the
Dele iteration and Close succeeded" is false, because
`err = s.mailbox.Close()` overwrites the Dele loop's error. -/
theorem C2_counterexample :
    mbDeleFail.dele 0 = some (Err.custom "dele failed") ∧
    (sessionClose sDeleFail).calls = [.dele 0, .close] ∧
    (sessionClose sDeleFail).writes = ["+OK server signing off\r\n"] := by
  decide


/-- C2 (amended): when QUIT is received with a mailbox open, the commit
sequence calls `Dele` once per pending index up to and including the
first failure, calls `Close` exactly once regardless, sends exactly one
final status line, and that line is `+OK server signing off` **iff the
mailbox's `Close` succeeded** — a `Dele` failure is overwritten by
`Close`'s result and does not affect the final line — before closing the
transport. -/
theorem C2_amended_commit_sequence (s : SessionSt) (mb : MailboxModel)
    (del : List Int) :
    (sessionClose { s with mailbox := some mb, toDelete := del }).calls =
      ((del.take (del.findIdx (fun n => (mb.dele n).isSome) + 1)).map
        MboxCall.dele) ++ [MboxCall.close] ∧
    (sessionClose { s with mailbox := some mb, toDelete := del }).calls.count
      MboxCall.close = 1 ∧
    (sessionClose { s with mailbox := some mb, toDelete := del }).writes =
      [responseLine "server signing off" mb.close] ∧
    ((sessionClose { s with mailbox := some mb, toDelete := del }).writes =
      ["+OK server signing off\r\n"] ↔ mb.close = none) ∧
    (sessionClose { s with mailbox := some mb, toDelete := del }).connClosed =
      true := by
  have hnc := deleLoop_no_close mb del
  unfold sessionClose
  refine ⟨?_, ?_, rfl, ?_, rfl⟩
  · simp [deleLoop_calls]
  · dsimp only
    rw [List.count_append, List.count_eq_zero.mpr hnc]
    simp
  · dsimp only
    cases hc : mb.close with
    | none => simp [responseLine]
    | some e =>
      simp only [responseLine]
      constructor
      · intro hw
        exfalso
        have h0 : ("-ERR " ++ Err.message e ++ "\r\n" : String) =
            "+OK server signing off\r\n" := by
          simpa using hw
        have h1 : ("+OK " ++ "server signing off\r\n" : String) =
            "+OK server signing off\r\n" := rfl
        exact errLine_ne_okLine (Err.message e) "\r\n" "server signing off\r\n"
          (h0.trans h1.symm)
      · intro hcc
        exact Option.noConfusion hcc

/-! ## C3 -/

/-- C3: the code accepts `DELE` for out-of-range 0-based indexes.  With
`msgCount = 2`, the wire command `DELE 3` (0-based index 2, one past the
last message) is answered `+OK message deleted` and index 2 enters the
deletion set; `DELE -5` likewise inserts a negative index.  The claimed
`[0, msgCount)` validation (`-ERR invalid arguments`) does not happen:
the source compares `n > s.msgCount` instead of `n >= s.msgCount` and
never rejects negative parsed values other than the `-1` sentinel. -/
theorem C3_dele_out_of_range_accepted :
    (serve Err.eof sTest ["USER u", "PASS p", "DELE 3"]).final.msgCount = 2 ∧
    (serve Err.eof sTest ["USER u", "PASS p", "DELE 3"]).final.toDelete = [2] ∧
    (serve Err.eof sTest ["USER u", "PASS p", "DELE 3"]).writes.getLast? =
      some "+OK message deleted\r\n" ∧
    (serve Err.eof sTest ["USER u", "PASS p", "DELE -5"]).final.toDelete = [-5] := by
  decide

/-! ## C4 -/

/-- C4: `LIST n` on an index marked as deleted writes the
`-ERR message marked as deleted` line but then *also* calls `ListOne`
and writes a second status line: `handleList` falls through instead of
returning (unlike `handleRetr`, `handleTop` and `handleUidl`). -/
theorem C4_list_falls_through :
    (serve Err.eof sTest ["USER u", "PASS p", "DELE 1", "LIST 1"]).writes =
      ["+OK send PASS\r\n", "+OK logged in\r\n", "+OK message deleted\r\n",
       "-ERR message marked as deleted\r\n", "+OK 1 500\r\n"] ∧
    (serve Err.eof sTest ["USER u", "PASS p", "DELE 1", "LIST 1"]).calls =
      [.stat, .listOne 0] := by
  decide

/-! ## C5 -/

/-- C5 counterexample: the claim's rule — companion `value - 1` for any
positive decimal argument and sentinel `-1` for zero or negative values,
identically for both arguments — fails at `TOP 2 3` (the second
argument's companion is 3, not 2) and at `DELE 0` (the first argument's
companion is 0, not `-1`). -/
theorem C5_counterexample :
    (Command.parse "TOP 2 3").numArgs = [1, 3] ∧
    (Command.parse "DELE 0").numArgs = [0] ∧
    (3 : Int) ≠ 3 - 1 ∧ (0 : Int) ≠ -1 := by
  decide

/-- C5 (amended): for a request line `nm a b` (two space-separated
arguments), the parser sets the **first** argument's companion to
`value - 1` when it parses as a positive decimal and to the parsed value
unchanged when it parses as zero or negative, sets the **second**
argument's companion to the parsed value unchanged, and uses the
sentinel `-1` only for arguments that do not parse as decimal
integers. -/
theorem C5_amended_parse (nm a b : String)
    (h1 : ' ' ∉ nm.toList) (h2 : ' ' ∉ a.toList) :
    (Command.parse (nm ++ " " ++ a ++ " " ++ b)).name = goToUpper nm ∧
    (Command.parse (nm ++ " " ++ a ++ " " ++ b)).args = [a, b] ∧
    (Command.parse (nm ++ " " ++ a ++ " " ++ b)).numArgs =
      [(match atoi a with
        | some v => if v > 0 then v - 1 else v
        | none => -1),
       (match atoi b with
        | some v => v
        | none => -1)] := by
  have htl : (nm ++ " " ++ a ++ " " ++ b).toList =
      nm.toList ++ ' ' :: (a.toList ++ ' ' :: b.toList) := by
    show (nm ++ " " ++ a ++ " " ++ b).data =
      nm.data ++ ' ' :: (a.data ++ ' ' :: b.data)
    rw [stringDataAppend, stringDataAppend, stringDataAppend]
    have hsp : (" " : String).data = [' '] := rfl
    rw [hsp]
    simp
  unfold Command.parse
  rw [htl, goSplitN3_two_spaces _ _ _ h1 h2]
  simp only [List.map, stringMkToList]
  refine ⟨rfl, rfl, ?_⟩
  rcases hA : atoi a with _ | v <;> rcases hB : atoi b with _ | w <;>
    simp [numCompanions, numCompanion, hA, hB]

/-- C5 witness: the amended parse rule at the concrete line
`top 2 3`. -/
theorem C5_witness :
    ' ' ∉ "top".toList ∧ ' ' ∉ "2".toList ∧
    ((Command.parse ("top" ++ " " ++ "2" ++ " " ++ "3")).name =
        goToUpper "top" ∧
     (Command.parse ("top" ++ " " ++ "2" ++ " " ++ "3")).args = ["2", "3"] ∧
     (Command.parse ("top" ++ " " ++ "2" ++ " " ++ "3")).numArgs =
       [(match atoi "2" with
         | some v => if v > 0 then v - 1 else v
         | none => -1),
        (match atoi "3" with
         | some v => v
         | none => -1)]) :=
  ⟨by decide, by decide, C5_amended_parse "top" "2" "3" (by decide) (by decide)⟩

/-! ## C6 -/

/-- C6: the TOP path performs no byte-stuffing.  For a message whose
body contains the line `.hidden`, `copyHeadersAndBody` transmits it
verbatim (the claim requires `..hidden`), and the full TOP response
shows the unstuffed line between the status line and the terminator.
(The RETR path, which uses `textproto.DotWriter`, does stuff it.) -/
theorem C6_top_not_byte_stuffed :
    copyHeadersAndBody "Subject: x\n\n.hidden\nL2\n" 2 =
      ["Subject: x\r\n", "\r\n", ".hidden\r\n", "L2\r\n"] ∧
    (serve Err.eof sTest ["USER u", "PASS p", "TOP 1 2"]).writes =
      ["+OK send PASS\r\n", "+OK logged in\r\n", "+OK message body\r\n",
       "Subject: x\r\n", "\r\n", ".hidden\r\n", "L2\r\n", ".\r\n"] ∧
    (serve Err.eof sTest ["USER u", "PASS p", "RETR 1"]).writes =
      ["+OK send PASS\r\n", "+OK logged in\r\n", "+OK message body #1\r\n",
       "Subject: x\r\n", "\r\n", "..hidden\r\n", "L2\r\n", ".\r\n"] := by
  decide

/-! ## C7 -/

/-- C7: the per-read timeout `Serve` passes to `timeoutCall` is the
hard-coded `10*time.Second`; the session's `ConnectionTimeout` field is
ignored.  A session configured with `ConnectionTimeout = 0` (claimed
unbounded) still gets `context.DeadlineExceeded` for a read taking 11s,
and a session configured with 30s is not granted 30s. -/
theorem C7_timeout_hardcoded :
    sTest.connectionTimeoutNs = 0 ∧
    serveReadTimeoutNs sTest = 10 * nsPerSecond ∧
    timeoutCall (serveReadTimeoutNs sTest) (11 * nsPerSecond)
      (.ok (Command.parse "NOOP")) = .error .deadlineExceeded ∧
    serveReadTimeoutNs sTimeout30 ≠ sTimeout30.connectionTimeoutNs := by
  decide

/-! ## C8 -/

/-- C8: a connection accepted at the session cap is answered with
`+OK \r\n` — `writeResponseLine("", err)` is passed the nil `Accept`
error, not `addSession`'s `ErrTooManyConnections` — and the transport
is not closed; the session loop is indeed never run.  The claimed
`-ERR too many connections` line is never produced. -/
theorem C8_overcap_writes_ok_line :
    addSession 100 100 = some Err.tooManyConnections ∧
    serveAcceptStep 100 100 =
      { writes := ["+OK \r\n"], connClosed := false, sessionStarted := false } ∧
    responseLine "" (some .tooManyConnections) =
      "-ERR pop3: too many connections\r\n" ∧
    "+OK \r\n" ≠ "-ERR too many connections\r\n" := by
  decide

/-! ## C9 -/

/-- C9: the wire-visible error strings.  Four of the six taxonomy
entries match, but the not-supported-auth-method sentinel carries the
misspelling `"not suported authorization method"`, and argument errors
are written as the literal `"-ERR invalid arguments\r\n"` (the declared
`ErrInvalidArgument` value, `"invalid argument"`, is not used by the
session), so neither matches the claimed `not supported authorization
method` / `invalid argument(s)` character for character. -/
theorem C9_error_strings :
    Err.message .userNotSpecified = "user not specified" ∧
    Err.message .userAlreadySpecified = "user already specified" ∧
    Err.message .invalidCommand = "invalid command" ∧
    Err.message .messageMarkedAsDeleted = "message marked as deleted" ∧
    Err.message .notSupportedAuthMethod = "not suported authorization method" ∧
    Err.message .notSupportedAuthMethod ≠ "not supported authorization method" ∧
    invalidArgumentsLine = "-ERR invalid arguments\r\n" ∧
    Err.message .invalidArgument ≠ "invalid argument(s)" := by
  decide

/-! ## C10 -/

/-- C10 counterexample: when `Stat` fails while reporting a count of 5,
`handlePass` replies `-ERR stat failed` yet still enters TRANSACTION —
and the cached message count is 5, not the claimed zero: the source
assigns `s.msgCount, _, err = s.mailbox.Stat()` whatever count `Stat`
returned beside the error. -/
theorem C10_counterexample :
    (handlePass sUserGiven (Command.parse "PASS p")).st.state = .transaction ∧
    (handlePass sUserGiven (Command.parse "PASS p")).st.msgCount = 5 ∧
    (5 : Int) ≠ 0 ∧
    (handlePass sUserGiven (Command.parse "PASS p")).writes =
      ["-ERR stat failed\r\n"] := by
  decide

/-- C10 (amended): if authentication and provisioning succeed but `Stat`
fails, both `handlePass` and `handleApop` reply `-ERR <message>`, yet
install the mailbox and enter TRANSACTION; the cached message count is
set to whatever count `Stat` returned beside its error (zero only under
the usual Go convention). -/
theorem C10_amended_auth_stat_error (s : SessionSt) (cmd cmd2 : Command)
    (pass u digest : String) (rest : List String) (mb : MailboxModel)
    (n sz : Int) (e : Err)
    (hu : s.user ≠ "")
    (hargs : cmd.args = pass :: rest)
    (hauth : s.authorizer.userPass s.user pass = none)
    (hprov : s.mboxProvider.provide s.user = .ok mb)
    (hstat : mb.stat = (n, sz, some e))
    (hargs2 : cmd2.args = [u, digest])
    (hapop : s.authorizer.apop u s.timestampBanner digest = none)
    (hprov2 : s.mboxProvider.provide u = .ok mb) :
    ((handlePass s cmd).st.state = .transaction ∧
     (handlePass s cmd).st.mailbox = some mb ∧
     (handlePass s cmd).st.msgCount = n ∧
     (handlePass s cmd).writes = ["-ERR " ++ e.message ++ "\r\n"]) ∧
    ((handleApop s cmd2).st.state = .transaction ∧
     (handleApop s cmd2).st.mailbox = some mb ∧
     (handleApop s cmd2).st.msgCount = n ∧
     (handleApop s cmd2).writes = ["-ERR " ++ e.message ++ "\r\n"]) := by
  constructor
  · simp [handlePass, hargs, hauth, hprov, hstat, hu, responseLine]
  · simp [handleApop, hargs2, hapop, hprov2, hstat, responseLine]

/-- C10 witness: the amended statement at a concrete session whose
mailbox's `Stat` returns `(5, 0, error)`. -/
theorem C10_witness :
    sUserGiven.user ≠ "" ∧
    (Command.parse "PASS p").args = ["p"] ∧
    sUserGiven.authorizer.userPass sUserGiven.user "p" = none ∧
    sUserGiven.mboxProvider.provide sUserGiven.user = .ok mbStatErr ∧
    mbStatErr.stat = (5, 0, some (.custom "stat failed")) ∧
    (Command.parse "APOP u digest").args = ["u", "digest"] ∧
    sUserGiven.authorizer.apop "u" sUserGiven.timestampBanner "digest" = none ∧
    sUserGiven.mboxProvider.provide "u" = .ok mbStatErr ∧
    (((handlePass sUserGiven (Command.parse "PASS p")).st.state =
        .transaction ∧
      (handlePass sUserGiven (Command.parse "PASS p")).st.mailbox =
        some mbStatErr ∧
      (handlePass sUserGiven (Command.parse "PASS p")).st.msgCount = 5 ∧
      (handlePass sUserGiven (Command.parse "PASS p")).writes =
        ["-ERR " ++ (Err.custom "stat failed").message ++ "\r\n"]) ∧
     ((handleApop sUserGiven (Command.parse "APOP u digest")).st.state =
        .transaction ∧
      (handleApop sUserGiven (Command.parse "APOP u digest")).st.mailbox =
        some mbStatErr ∧
      (handleApop sUserGiven (Command.parse "APOP u digest")).st.msgCount =
        5 ∧
      (handleApop sUserGiven (Command.parse "APOP u digest")).writes =
        ["-ERR " ++ (Err.custom "stat failed").message ++ "\r\n"])) :=
  ⟨by decide, by decide, rfl, rfl, rfl, by decide, rfl, rfl,
   C10_amended_auth_stat_error sUserGiven (Command.parse "PASS p")
     (Command.parse "APOP u digest") "p" "u" "digest" [] mbStatErr 5 0
     (.custom "stat failed") (by decide) (by decide) rfl rfl rfl
     (by decide) rfl rfl⟩

end Pop3Srv
